import Mathlib

/-
Verification of `src/implementors/core/ops/drop/trait.Drop.js`, a rustdoc-generated
registration shim.  The script is an IIFE that (1) builds a static table mapping
crate names to lists of implementor records and (2) either calls
`window.register_implementors(implementors)` when that global slot is truthy, or
stores the table in `window.pending_implementors` otherwise.

The embedding below models JavaScript values as far as the script exercises them
(truthiness, functions, the table), the `window` global object as a record with the
two slots the script names plus an abstract remainder, and the shim as a function
from the initial window state to a result carrying the final window state, the list
of call-expression invocations of the callback slot (each with its argument), and
the control outcome (normal completion, a propagated exception from the callback,
or the TypeError a truthy non-function in the slot would raise).  The behavior of a
function value stored in the slot is interpreted by an environment `call` mapping
the function identity and argument to the window it leaves behind and an optional
thrown exception.
-/

/-- One record of the generated table: the JavaScript object literal with its
three fields `text`, `synthetic` and `types`. -/
structure ImplementorRecord where
  text : String
  synthetic : Bool
  types : List String
deriving DecidableEq, Repr

/-- The type of the table: an association list from crate name to the list of
records inserted for it, in insertion order. -/
abbrev Table := List (String × List ImplementorRecord)
/-- The static implementor table built by the script: the value of the local
`implementors` variable after the eight assignment statements, in source order. -/
def implementors : Table := [
  ("bzip2",
   [
    ImplementorRecord.mk
      "impl&lt;W:&nbsp;<a class=\"trait\" href=\"https://doc.rust-lang.org/nightly/std/io/trait.Write.html\" title=\"trait std::io::Write\">Write</a>&gt; <a class=\"trait\" href=\"https://doc.rust-lang.org/nightly/core/ops/drop/trait.Drop.html\" title=\"trait core::ops::drop::Drop\">Drop</a> for <a class=\"struct\" href=\"bzip2/write/struct.BzEncoder.html\" title=\"struct bzip2::write::BzEncoder\">BzEncoder</a>&lt;W&gt;"
      false (["bzip2::write::BzEncoder"]),
    ImplementorRecord.mk
      "impl&lt;W:&nbsp;<a class=\"trait\" href=\"https://doc.rust-lang.org/nightly/std/io/trait.Write.html\" title=\"trait std::io::Write\">Write</a>&gt; <a class=\"trait\" href=\"https://doc.rust-lang.org/nightly/core/ops/drop/trait.Drop.html\" title=\"trait core::ops::drop::Drop\">Drop</a> for <a class=\"struct\" href=\"bzip2/write/struct.BzDecoder.html\" title=\"struct bzip2::write::BzDecoder\">BzDecoder</a>&lt;W&gt;"
      false (["bzip2::write::BzDecoder"])
   ]),
  ("flate2",
   [
    ImplementorRecord.mk
      "impl&lt;W:&nbsp;<a class=\"trait\" href=\"https://doc.rust-lang.org/nightly/std/io/trait.Write.html\" title=\"trait std::io::Write\">Write</a>&gt; <a class=\"trait\" href=\"https://doc.rust-lang.org/nightly/core/ops/drop/trait.Drop.html\" title=\"trait core::ops::drop::Drop\">Drop</a> for <a class=\"struct\" href=\"flate2/write/struct.GzEncoder.html\" title=\"struct flate2::write::GzEncoder\">GzEncoder</a>&lt;W&gt;"
      false (["flate2::gz::write::GzEncoder"])
   ]),
  ("generic_array",
   [
    ImplementorRecord.mk
      "impl&lt;T, N&gt; <a class=\"trait\" href=\"https://doc.rust-lang.org/nightly/core/ops/drop/trait.Drop.html\" title=\"trait core::ops::drop::Drop\">Drop</a> for <a class=\"struct\" href=\"generic_array/iter/struct.GenericArrayIter.html\" title=\"struct generic_array::iter::GenericArrayIter\">GenericArrayIter</a>&lt;T, N&gt; <span class=\"where fmt-newline\">where<br>&nbsp;&nbsp;&nbsp;&nbsp;N: <a class=\"trait\" href=\"generic_array/trait.ArrayLength.html\" title=\"trait generic_array::ArrayLength\">ArrayLength</a>&lt;T&gt;,&nbsp;</span>"
      false (["generic_array::iter::GenericArrayIter"])
   ]),
  ("regex_syntax",
   [
    ImplementorRecord.mk
      "impl <a class=\"trait\" href=\"https://doc.rust-lang.org/nightly/core/ops/drop/trait.Drop.html\" title=\"trait core::ops::drop::Drop\">Drop</a> for <a class=\"enum\" href=\"regex_syntax/ast/enum.Ast.html\" title=\"enum regex_syntax::ast::Ast\">Ast</a>"
      false (["regex_syntax::ast::Ast"]),
    ImplementorRecord.mk
      "impl <a class=\"trait\" href=\"https://doc.rust-lang.org/nightly/core/ops/drop/trait.Drop.html\" title=\"trait core::ops::drop::Drop\">Drop</a> for <a class=\"enum\" href=\"regex_syntax/ast/enum.ClassSet.html\" title=\"enum regex_syntax::ast::ClassSet\">ClassSet</a>"
      false (["regex_syntax::ast::ClassSet"]),
    ImplementorRecord.mk
      "impl <a class=\"trait\" href=\"https://doc.rust-lang.org/nightly/core/ops/drop/trait.Drop.html\" title=\"trait core::ops::drop::Drop\">Drop</a> for <a class=\"struct\" href=\"regex_syntax/hir/struct.Hir.html\" title=\"struct regex_syntax::hir::Hir\">Hir</a>"
      false (["regex_syntax::hir::Hir"])
   ]),
  ("syn",
   [
    ImplementorRecord.mk
      "impl&lt;\x27a&gt; <a class=\"trait\" href=\"https://doc.rust-lang.org/nightly/core/ops/drop/trait.Drop.html\" title=\"trait core::ops::drop::Drop\">Drop</a> for <a class=\"struct\" href=\"syn/parse/struct.ParseBuffer.html\" title=\"struct syn::parse::ParseBuffer\">ParseBuffer</a>&lt;\x27a&gt;"
      false (["syn::parse::ParseBuffer"])
   ]),
  ("thread_local",
   [
    ImplementorRecord.mk
      "impl&lt;T:&nbsp;?<a class=\"trait\" href=\"https://doc.rust-lang.org/nightly/core/marker/trait.Sized.html\" title=\"trait core::marker::Sized\">Sized</a> + <a class=\"trait\" href=\"https://doc.rust-lang.org/nightly/core/marker/trait.Send.html\" title=\"trait core::marker::Send\">Send</a>&gt; <a class=\"trait\" href=\"https://doc.rust-lang.org/nightly/core/ops/drop/trait.Drop.html\" title=\"trait core::ops::drop::Drop\">Drop</a> for <a class=\"struct\" href=\"thread_local/struct.ThreadLocal.html\" title=\"struct thread_local::ThreadLocal\">ThreadLocal</a>&lt;T&gt;"
      false (["thread_local::ThreadLocal"])
   ]),
  ("zip",
   [
    ImplementorRecord.mk
      "impl&lt;\x27a&gt; <a class=\"trait\" href=\"https://doc.rust-lang.org/nightly/core/ops/drop/trait.Drop.html\" title=\"trait core::ops::drop::Drop\">Drop</a> for <a class=\"struct\" href=\"zip/read/struct.ZipFile.html\" title=\"struct zip::read::ZipFile\">ZipFile</a>&lt;\x27a&gt;"
      false (["zip::read::ZipFile"]),
    ImplementorRecord.mk
      "impl&lt;W:&nbsp;<a class=\"trait\" href=\"https://doc.rust-lang.org/nightly/std/io/trait.Write.html\" title=\"trait std::io::Write\">Write</a> + <a class=\"trait\" href=\"https://doc.rust-lang.org/nightly/std/io/trait.Seek.html\" title=\"trait std::io::Seek\">Seek</a>&gt; <a class=\"trait\" href=\"https://doc.rust-lang.org/nightly/core/ops/drop/trait.Drop.html\" title=\"trait core::ops::drop::Drop\">Drop</a> for <a class=\"struct\" href=\"zip/write/struct.ZipWriter.html\" title=\"struct zip::write::ZipWriter\">ZipWriter</a>&lt;W&gt;"
      false (["zip::write::ZipWriter"])
   ])
]

/-- JavaScript values, as far as this script distinguishes them: the primitive
values whose truthiness the `if` can observe, the implementor table object, and
function values identified by an abstract identity. -/
inductive JSValue where
  | undefined : JSValue
  | null : JSValue
  | bool : Bool → JSValue
  | num : Int → JSValue
  | str : String → JSValue
  | table : Table → JSValue
  | fn : Nat → JSValue
deriving DecidableEq, Repr

/-- JavaScript truthiness of a `JSValue`: `undefined`, `null`, `false`, `0` and
the empty string are falsy; every object and function is truthy. -/
def truthy : JSValue → Bool
  | JSValue.undefined => false
  | JSValue.null => false
  | JSValue.bool b => b
  | JSValue.num n => n != 0
  | JSValue.str s => !s.isEmpty
  | JSValue.table _ => true
  | JSValue.fn _ => true

/-- The `window` global object: the two slots the script names, plus an abstract
remainder `other` standing for every other piece of global state. -/
structure Window (σ : Type) where
  register_implementors : JSValue
  pending_implementors : JSValue
  other : σ
deriving DecidableEq, Repr

/-- The assignment `window.pending_implementors = v`: it changes that slot and
nothing else. -/
def setPending (w : Window σ) (v : JSValue) : Window σ :=
  Window.mk w.register_implementors v w.other

/-- How the shim's single statement completes: normally, with a TypeError because
the truthy slot value was not callable, or by propagating an exception thrown by
the callback. -/
inductive ShimOutcome (E : Type) where
  | normal : ShimOutcome E
  | notAFunction : ShimOutcome E
  | thrown : E → ShimOutcome E
deriving DecidableEq, Repr

/-- The observable result of one run of the shim: the final window, the arguments
of the invocations of the callback slot (in order; JavaScript evaluates the
argument and attempts the call even when the truthy callee is not callable), and
the control outcome. -/
structure ShimResult (σ E : Type) where
  window : Window σ
  calls : List Table
  outcome : ShimOutcome E
deriving DecidableEq, Repr

/-- An environment interpreting function values: `call id t w` is the window a
call of the function with identity `id` on argument `t` from window `w` leaves
behind, together with the exception it throws, if any. -/
abbrev CallEnv (σ E : Type) := Nat → Table → Window σ → Window σ × Option E

/-- The registration shim, lines 10-14 of the source:
`if (window.register_implementors) window.register_implementors(implementors);
else window.pending_implementors = implementors;`. -/
def runShim (call : CallEnv σ E) (w : Window σ) : ShimResult σ E :=
  if truthy w.register_implementors then
    match w.register_implementors with
    | JSValue.fn id =>
        ShimResult.mk (call id implementors w).1 ([implementors])
          (match (call id implementors w).2 with
            | none => ShimOutcome.normal
            | some e => ShimOutcome.thrown e)
    | _ => ShimResult.mk w ([implementors]) (ShimOutcome.notAFunction)
  else
    ShimResult.mk (setPending w (JSValue.table implementors)) ([]) (ShimOutcome.normal)

/-- Program counter of the IIFE body: before the table construction, before the
registration statement, and after it. -/
inductive ScriptPC where
  | buildTable : ScriptPC
  | register : ScriptPC
  | done : ScriptPC
deriving DecidableEq, Repr

/-- A configuration of the IIFE: the next step to run, the local `implementors`
variable (absent before its construction), the window, and the observations the
run has produced so far. -/
structure ScriptState (σ E : Type) where
  pc : ScriptPC
  table : Option Table
  window : Window σ
  calls : List Table
  outcome : Option (ShimOutcome E)
deriving DecidableEq, Repr

/-- The initial configuration of the IIFE on a window `w`. -/
def initScript (w : Window σ) : ScriptState σ E :=
  ScriptState.mk ScriptPC.buildTable none w ([]) none

/-- One step of the IIFE body: the straight-line sequence of its two statements.
Step one builds the local table (lines 1-8); step two runs the registration shim
(lines 10-14); a finished configuration has no successor. -/
def scriptStep (call : CallEnv σ E) : ScriptState σ E → Option (ScriptState σ E)
  | ScriptState.mk ScriptPC.buildTable _ w cs o =>
      some (ScriptState.mk ScriptPC.register (some implementors) w cs o)
  | ScriptState.mk ScriptPC.register t w cs _ =>
      some (ScriptState.mk ScriptPC.done t (runShim call w).window
        (cs ++ (runShim call w).calls) (some (runShim call w).outcome))
  | ScriptState.mk ScriptPC.done _ _ _ _ => none

/-- A callback that returns without modifying the window and without throwing:
used to observe the effect of the shim itself in isolation. -/
def noopCall (σ E : Type) : CallEnv σ E := fun _ _ w => Prod.mk w none

/-- A callback that throws the exception `7` without modifying the window. -/
def throwCall : CallEnv Unit Nat := fun _ _ w => Prod.mk w (some 7)

/-- A window whose callback slot holds a function and whose pending slot is empty. -/
def wFn : Window Unit := Window.mk (JSValue.fn 0) JSValue.undefined ()

/-- A window with both slots absent (reads of missing properties give `undefined`). -/
def wEmpty : Window Unit := Window.mk JSValue.undefined JSValue.undefined ()

/-- A window whose callback slot holds the defined but falsy value `0`. -/
def wZero : Window Unit := Window.mk (JSValue.num 0) JSValue.undefined ()

/-- If the callback slot holds a function, the shim invokes it once on the full
table and the final window is whatever the call leaves behind. -/
theorem runShim_fn (call : CallEnv σ E) (w : Window σ) (id : Nat)
    (h : w.register_implementors = JSValue.fn id) :
    (runShim call w).window = (call id implementors w).1 ∧
    (runShim call w).calls = [implementors] := by
  unfold runShim
  rw [h]
  exact ⟨rfl, rfl⟩

/-- If the callback slot is falsy, the shim only writes the table to the pending
slot and completes normally. -/
theorem runShim_falsy (call : CallEnv σ E) (w : Window σ)
    (h : truthy w.register_implementors = false) :
    runShim call w =
      ShimResult.mk (setPending w (JSValue.table implementors)) ([]) ShimOutcome.normal := by
  unfold runShim
  rw [h]
  rfl

/-- With a callback that does nothing, a run of the shim is one of exactly three
results, fixed by the value in the callback slot. -/
theorem runShim_noop_cases (σ : Type) (w : Window σ) :
    runShim (noopCall σ Unit) w = ShimResult.mk w ([implementors]) ShimOutcome.normal ∨
    runShim (noopCall σ Unit) w = ShimResult.mk w ([implementors]) ShimOutcome.notAFunction ∨
    runShim (noopCall σ Unit) w =
      ShimResult.mk (setPending w (JSValue.table implementors)) ([]) ShimOutcome.normal := by
  rcases h : w.register_implementors with _ | _ | b | n | s | t | id
  · right; right; exact runShim_falsy _ w (by rw [h]; rfl)
  · right; right; exact runShim_falsy _ w (by rw [h]; rfl)
  · cases b
    · right; right; exact runShim_falsy _ w (by rw [h]; rfl)
    · right; left; unfold runShim; rw [h]; rfl
  · by_cases hn : n = 0
    · right; right; exact runShim_falsy _ w (by rw [h, hn]; rfl)
    · right; left
      have ht : truthy w.register_implementors = true := by
        rw [h]; simp [truthy, hn]
      unfold runShim
      rw [ht, h]
      rfl
  · by_cases hs : s.isEmpty
    · right; right; exact runShim_falsy _ w (by rw [h]; simp [truthy, hs])
    · right; left
      have ht : truthy w.register_implementors = true := by
        rw [h]; simp [truthy, hs]
      unfold runShim
      rw [ht, h]
      rfl
  · right; left; unfold runShim; rw [h]; rfl
  · left; unfold runShim; rw [h]; rfl

/-- Claim C1: if the global callback slot holds a function before the shim
executes, the callback is invoked exactly once, synchronously, with the full
implementor table as its only argument, and (given that the invoked callback
itself leaves the pending slot alone) the pending-data slot is left untouched. -/
theorem callback_present_invoked_once (call : CallEnv σ E) (w : Window σ) (id : Nat)
    (hf : w.register_implementors = JSValue.fn id)
    (hcb : ((call id implementors w).1).pending_implementors = w.pending_implementors) :
    (runShim call w).calls = [implementors] ∧
    (runShim call w).window.pending_implementors = w.pending_implementors := by
  obtain ⟨hw, hc⟩ := runShim_fn call w id hf
  exact ⟨hc, by rw [hw]; exact hcb⟩

/-- Concrete instance of claim C1: a function in the slot, pending slot absent,
a callback that returns without touching the window. -/
theorem callback_present_invoked_once_witness :
    wFn.register_implementors = JSValue.fn 0 ∧
    ((noopCall Unit Unit 0 implementors wFn).1).pending_implementors =
      wFn.pending_implementors ∧
    ((runShim (noopCall Unit Unit) wFn).calls = [implementors] ∧
      (runShim (noopCall Unit Unit) wFn).window.pending_implementors =
        wFn.pending_implementors) :=
  ⟨rfl, rfl, callback_present_invoked_once (noopCall Unit Unit) wFn 0 rfl rfl⟩

/-- Claim C2: if the global callback slot is empty (reads as `undefined`) when the
shim executes, the pending-data slot is set to the full implementor table and no
callback is invoked. -/
theorem callback_absent_pending_set (call : CallEnv σ E) (w : Window σ)
    (hf : w.register_implementors = JSValue.undefined) :
    runShim call w =
      ShimResult.mk (setPending w (JSValue.table implementors)) ([]) ShimOutcome.normal ∧
    (runShim call w).window.pending_implementors = JSValue.table implementors ∧
    (runShim call w).calls = [] := by
  have h := runShim_falsy call w (by rw [hf]; rfl)
  rw [h]
  exact ⟨rfl, rfl, rfl⟩

/-- Concrete instance of claim C2: both slots absent before the run. -/
theorem callback_absent_pending_set_witness :
    wEmpty.register_implementors = JSValue.undefined ∧
    (runShim (noopCall Unit Unit) wEmpty =
      ShimResult.mk (setPending wEmpty (JSValue.table implementors)) ([])
        ShimOutcome.normal ∧
    (runShim (noopCall Unit Unit) wEmpty).window.pending_implementors =
      JSValue.table implementors ∧
    (runShim (noopCall Unit Unit) wEmpty).calls = []) :=
  ⟨rfl, callback_absent_pending_set (noopCall Unit Unit) wEmpty rfl⟩

/-- Claim C3: from every initial global state, one run of the shim (whose own
effect is isolated by a callback that does nothing) touches exactly one of the
two slots: either the callback slot is invoked (and the window, pending slot
included, is unchanged) or the pending slot is written, never both and never
neither; and the shim itself modifies neither the callback slot nor any other
global state. -/
theorem exactly_one_slot_touched (σ : Type) (w : Window σ) :
    (((runShim (noopCall σ Unit) w).calls = [implementors] ∧
        (runShim (noopCall σ Unit) w).window = w) ∨
      ((runShim (noopCall σ Unit) w).calls = [] ∧
        (runShim (noopCall σ Unit) w).window =
          setPending w (JSValue.table implementors))) ∧
    ¬(((runShim (noopCall σ Unit) w).calls = [implementors] ∧
        (runShim (noopCall σ Unit) w).window = w) ∧
      ((runShim (noopCall σ Unit) w).calls = [] ∧
        (runShim (noopCall σ Unit) w).window =
          setPending w (JSValue.table implementors))) ∧
    (runShim (noopCall σ Unit) w).window.register_implementors =
      w.register_implementors ∧
    (runShim (noopCall σ Unit) w).window.other = w.other := by
  have hne : implementors :: ([] : List Table) ≠ [] := List.cons_ne_nil _ _
  rcases runShim_noop_cases σ w with h | h | h <;> rw [h]
  · exact ⟨Or.inl ⟨rfl, rfl⟩, fun hb => hne hb.2.1, rfl, rfl⟩
  · exact ⟨Or.inl ⟨rfl, rfl⟩, fun hb => hne hb.2.1, rfl, rfl⟩
  · exact ⟨Or.inr ⟨rfl, rfl⟩, fun hb => hne hb.1.1.symm, rfl, rfl⟩

/-- Claim C4: in the constructed implementor table all keys are unique, every
key's record sequence is non-empty, and the shim hands the table object itself
(hence the sequences in their original insertion order) to the callback or to
the pending slot. -/
theorem table_wellformed :
    (implementors.map Prod.fst).Nodup ∧
    (implementors.all fun p => !p.2.isEmpty) = true ∧
    ∀ (σ : Type) (w : Window σ),
      (runShim (noopCall σ Unit) w).calls = [implementors] ∨
      (runShim (noopCall σ Unit) w).window.pending_implementors =
        JSValue.table implementors := by
  refine ⟨by decide, rfl, ?_⟩
  intro σ w
  rcases runShim_noop_cases σ w with h | h | h <;> rw [h]
  · exact Or.inl rfl
  · exact Or.inl rfl
  · exact Or.inr rfl

/-- Claim C5: an implementor record consists of exactly the three fields `text`
(a display string), `synthetic` (a boolean variant flag) and `types` (an ordered
sequence of fully qualified type names): every record is recovered from those
three projections, the three projections of a built record return its three
components, and rebuilding every record of the table from its three fields gives
back the table. -/
theorem record_shape :
    (∀ r : ImplementorRecord, ImplementorRecord.mk r.text r.synthetic r.types = r) ∧
    (∀ (s : String) (b : Bool) (ts : List String),
        (ImplementorRecord.mk s b ts).text = s ∧
        (ImplementorRecord.mk s b ts).synthetic = b ∧
        (ImplementorRecord.mk s b ts).types = ts) ∧
    implementors.map (fun p => Prod.mk p.1 (p.2.map fun r =>
        ImplementorRecord.mk r.text r.synthetic r.types)) = implementors := by
  refine ⟨?_, ?_, ?_⟩
  · intro r; cases r; rfl
  · intro s b ts; exact ⟨rfl, rfl, rfl⟩
  · rfl

/-- Claim C6: the shim defines no error handling of its own: when the invoked
callback throws, the very same exception propagates as the outcome, the callback
was invoked exactly once, and the final window is exactly the one the callback
left behind — the shim performs no detection, recovery, retry, or write of its
own to the pending slot in that case. -/
theorem callback_exception_propagates (call : CallEnv σ E) (w : Window σ)
    (id : Nat) (e : E)
    (hf : w.register_implementors = JSValue.fn id)
    (he : (call id implementors w).2 = some e) :
    (runShim call w).outcome = ShimOutcome.thrown e ∧
    (runShim call w).calls = [implementors] ∧
    (runShim call w).window = (call id implementors w).1 := by
  unfold runShim
  rw [hf]
  refine ⟨?_, rfl, rfl⟩
  show (match (call id implementors w).2 with
    | none => ShimOutcome.normal
    | some e => ShimOutcome.thrown e) = ShimOutcome.thrown e
  rw [he]

/-- Concrete instance of claim C6: a callback that throws the exception `7`. -/
theorem callback_exception_propagates_witness :
    wFn.register_implementors = JSValue.fn 0 ∧
    (throwCall 0 implementors wFn).2 = some 7 ∧
    ((runShim throwCall wFn).outcome = ShimOutcome.thrown 7 ∧
      (runShim throwCall wFn).calls = [implementors] ∧
      (runShim throwCall wFn).window = (throwCall 0 implementors wFn).1) :=
  ⟨rfl, rfl, callback_exception_propagates throwCall wFn 0 7 rfl rfl⟩

/-- Claim C7: the script body terminates: from its initial configuration it runs
its two statements — table construction, then the registration shim — in sequence
exactly once, reaching in exactly two steps a final configuration (one with no
successor) that carries the result of the shim. -/
theorem script_terminates (σ E : Type) (call : CallEnv σ E) (w : Window σ) :
    ∃ s1 s2 : ScriptState σ E,
      scriptStep call (initScript w) = some s1 ∧
      scriptStep call s1 = some s2 ∧
      s2.pc = ScriptPC.done ∧
      scriptStep call s2 = none ∧
      s2.table = some implementors ∧
      s2.window = (runShim call w).window ∧
      s2.calls = (runShim call w).calls ∧
      s2.outcome = some (runShim call w).outcome :=
  ⟨_, _, rfl, rfl, rfl, rfl, rfl, rfl, rfl, rfl⟩

/-- Claim C8: the branch decision is JavaScript truthiness of the callback slot,
not mere presence: for any falsy value in the slot (also defined ones such as
`null`, `false`, `0` or the empty string) the shim takes the pending-slot branch,
writes the table to the pending slot, and invokes nothing. -/
theorem falsy_slot_pending_branch (call : CallEnv σ E) (w : Window σ)
    (h : truthy w.register_implementors = false) :
    (runShim call w).window.pending_implementors = JSValue.table implementors ∧
    (runShim call w).calls = [] ∧
    (runShim call w).outcome = ShimOutcome.normal ∧
    (runShim call w).window.register_implementors = w.register_implementors := by
  rw [runShim_falsy call w h]
  exact ⟨rfl, rfl, rfl, rfl⟩

/-- Concrete instance of claim C8: the slot holds `0`, a value that is present
and defined yet falsy, and the pending branch is taken. -/
theorem falsy_slot_pending_branch_witness :
    truthy wZero.register_implementors = false ∧
    ((runShim (noopCall Unit Unit) wZero).window.pending_implementors =
        JSValue.table implementors ∧
      (runShim (noopCall Unit Unit) wZero).calls = [] ∧
      (runShim (noopCall Unit Unit) wZero).outcome = ShimOutcome.normal ∧
      (runShim (noopCall Unit Unit) wZero).window.register_implementors =
        wZero.register_implementors) :=
  ⟨by decide, falsy_slot_pending_branch (noopCall Unit Unit) wZero (by decide)⟩

/-- Claim C9: every record of the constructed table has its variant flag
`synthetic` set to `false` — the table holds no automatically derived entries —
while the data model does admit records with the flag set. -/
theorem all_records_not_synthetic :
    (implementors.all fun p => p.2.all fun r => !r.synthetic) = true ∧
    (ImplementorRecord.mk "" true ([])).synthetic = true :=
  ⟨rfl, rfl⟩

/-- Claim C10: the shim is deterministic: two runs under the same callback
interpretation from identical global state (same callback slot, same pending
slot, same remaining global state) produce identical results — the same final
window and the same sequence of callback invocations. -/
theorem shim_deterministic (call : CallEnv σ E) (w w2 : Window σ)
    (h1 : w.register_implementors = w2.register_implementors)
    (h2 : w.pending_implementors = w2.pending_implementors)
    (h3 : w.other = w2.other) :
    runShim call w = runShim call w2 := by
  have hw : w = w2 := by
    cases w
    cases w2
    simp_all
  rw [hw]

/-- Concrete instance of claim C10: two windows built separately from the same
slot values give identical results. -/
theorem shim_deterministic_witness :
    wFn.register_implementors =
      (Window.mk (JSValue.fn 0) JSValue.undefined ()).register_implementors ∧
    wFn.pending_implementors =
      (Window.mk (JSValue.fn 0) JSValue.undefined ()).pending_implementors ∧
    wFn.other = (Window.mk (JSValue.fn 0) JSValue.undefined ()).other ∧
    runShim (noopCall Unit Unit) wFn =
      runShim (noopCall Unit Unit) (Window.mk (JSValue.fn 0) JSValue.undefined ()) :=
  ⟨rfl, rfl, rfl,
    shim_deterministic (noopCall Unit Unit) wFn
      (Window.mk (JSValue.fn 0) JSValue.undefined ()) rfl rfl rfl⟩
